import Mathlib

/-!
Verification development for the shadcn-to-typescript props-extraction tool.

The repository contains two variants of the extraction script
(`get-component-props.ts`, modelled at top level, and a second script modelled
in namespace `P0`), a static component registry (`component-registry.ts`) and
auxiliary analyzers.  The definitions below are shallow embeddings of the
string- and list-level algorithms of those sources: TypeScript strings become
`String`, arrays become `List`, exceptions become `Except`/`Option`, and the
abstract syntax trees produced by the external parsers (ts-morph, babel) are
modelled as explicit structures, with a failed parse modelled as `none`.
JavaScript string operations are modelled on the ASCII range (the repository
only manipulates ASCII identifiers); the regular-expression scans of the
sources are implemented as direct scanning functions over character lists.
-/

/-- ASCII lower-case letter test, as used by the JS character class `[a-z]`. -/
def isLowerA (c : Char) : Bool :=
  decide (97 ≤ c.toNat) && decide (c.toNat ≤ 122)

/-- ASCII upper-case letter test, as used by the JS character class `[A-Z]`. -/
def isUpperA (c : Char) : Bool :=
  decide (65 ≤ c.toNat) && decide (c.toNat ≤ 90)

/-- ASCII digit test, as used by the JS character class `[0-9]`. -/
def isDigitA (c : Char) : Bool :=
  decide (48 ≤ c.toNat) && decide (c.toNat ≤ 57)

/-- ASCII alphanumeric test, the JS character class `[a-zA-Z0-9]`. -/
def isAlnumA (c : Char) : Bool :=
  isLowerA c || isUpperA c || isDigitA c

/-- JS word character (`[A-Za-z0-9_]`). -/
def wordCharA (c : Char) : Bool :=
  isAlnumA c || c = '_'

/-- Whitespace, as matched by the JS regex class `\s` (ASCII part). -/
def isWsA (c : Char) : Bool :=
  c = ' ' || c = '\t' || c = '\n' || c = '\r' || c = '\x0b' || c = '\x0c'

/-- ASCII action of `String.prototype.toLowerCase` on one character. -/
def jsLower (c : Char) : Char :=
  if isUpperA c then Char.ofNat (c.toNat + 32) else c

/-- ASCII action of `String.prototype.toUpperCase` on one character. -/
def jsUpper (c : Char) : Char :=
  if isLowerA c then Char.ofNat (c.toNat - 32) else c

/-- `String.prototype.toLowerCase`, ASCII model. -/
def lowerStr (s : String) : String :=
  String.mk (s.data.map jsLower)

/-- Substring occurrence test on character lists. -/
def infixAt (needle : List Char) : List Char → Bool
  | [] => needle.isEmpty
  | c :: rest => needle.isPrefixOf (c :: rest) || infixAt needle rest

/-- `hay.includes(needle)` on JS strings (also literal regex substring tests). -/
def containsStr (hay needle : String) : Bool :=
  infixAt needle.data hay.data

/-- Case-insensitive substring test `/pat/i.test(s)` for a lower-case
literal pattern `pat`. -/
def ciHas (s pat : String) : Bool :=
  containsStr (lowerStr s) pat

/-- One pass of the JS global replace `s.replace(/([a-z])([A-Z])/g, "$1-$2")`:
a dash is inserted between each lower-case letter immediately followed by an
upper-case letter, and scanning resumes after the matched pair. -/
def kebabReplace : List Char → List Char
  | [] => []
  | [c] => [c]
  | a :: b :: rest =>
    if isLowerA a && isUpperA b then a :: '-' :: b :: kebabReplace rest
    else a :: kebabReplace (b :: rest)

/-- The kebab-case normalization used throughout `get-component-props.ts` and
`component-registry.ts`:
`componentName.replace(/([a-z])([A-Z])/g, "$1-$2").toLowerCase()`. -/
def normalizeKey (s : String) : String :=
  String.mk ((kebabReplace s.data).map jsLower)

/-- `s.split(sep)` for a one-character separator, as in JS `split("/")`. -/
def splitOnCharAux (sep : Char) : List Char → List Char → List (List Char)
  | [], cur => [cur.reverse]
  | c :: rest, cur =>
    if c = sep then cur.reverse :: splitOnCharAux sep rest []
    else splitOnCharAux sep rest (c :: cur)

/-- `s.split("/")` on a JS string. -/
def splitSlash (s : String) : List String :=
  (splitOnCharAux '/' s.data []).map String.mk

/-- `extractComponentName` of `get-component-props.ts` (lines 138-151): throws
on empty input, takes the last URL path segment (dropping query/fragment) for
`http...` inputs, and returns other inputs verbatim. -/
def extractComponentName (input : String) : Except String String :=
  if input = "" then Except.error "No component name or URL provided"
  else if "http".data.isPrefixOf input.data then
    let lastPathSegment := ((splitSlash input).getLast?).getD ""
    Except.ok (String.mk (lastPathSegment.data.takeWhile fun c => ¬(c = '?' ∨ c = '#')))
  else Except.ok input

/-- One JS string produced by splitting at every non-alphanumeric character
(`componentName.split(/[^a-zA-Z0-9]/)`); empty pieces are kept, as in JS. -/
def splitNonAlnumAux : List Char → List Char → List (List Char)
  | [], cur => [cur.reverse]
  | c :: rest, cur =>
    if isAlnumA c then splitNonAlnumAux rest (c :: cur)
    else cur.reverse :: splitNonAlnumAux rest []

/-- `s.split(/[^a-zA-Z0-9]/)` on a JS string. -/
def splitNonAlnum (s : String) : List String :=
  (splitNonAlnumAux s.data []).map String.mk

/-- `part.charAt(0).toUpperCase() + part.slice(1).toLowerCase()`. -/
def capLower (s : String) : String :=
  match s.data with
  | [] => ""
  | c :: rest => String.mk (jsUpper c :: rest.map jsLower)

/-- The Pascal-case conversion of `createDefaultPropsInterface`
(`get-component-props.ts` lines 628-631). -/
def pascalCaseGcp (componentName : String) : String :=
  String.join ((splitNonAlnum componentName).map capLower)

/-- `isPropsType` of `get-component-props.ts` (lines 417-427): a name looks
props-related when it contains `Props`, or its lower-cased form contains the
lower-cased component name together with `props` or `attributes`, or it is
exactly `Props`. -/
def isPropsType (name componentName : String) : Bool :=
  let normalizedComponentName := lowerStr componentName
  let normalizedName := lowerStr name
  containsStr name "Props" ||
  (containsStr normalizedName normalizedComponentName &&
    (containsStr normalizedName "props" || containsStr normalizedName "attributes")) ||
  name == "Props"

/-- A named declaration as seen by a parser (name plus source text). -/
structure Decl where
  name : String
  text : String
deriving Repr, DecidableEq

/-- Abstract ts-morph syntax tree of a source file: the declared interfaces,
type aliases, exported declarations (name with the texts of its declarations,
in map iteration order) and the texts of all type-reference nodes, in
traversal order. -/
structure TsAst where
  interfaces : List Decl
  typeAliases : List Decl
  exportedDecls : List (String × List String)
  typeRefs : List String
deriving Repr, DecidableEq

/-- A node event of the babel traversal of `extractPropsWithBabel`, in
traversal order.  An `export` wrapper and its inner declaration are distinct
events, as babel visits both. -/
inductive BabelNode where
  | iface (name text : String)
  | alias (name text : String)
  | exportIface (name text : String)
  | exportAlias (name text : String)
deriving Repr, DecidableEq

/-- A candidate source file: its raw text, and the parse results of the two
structural parsers (`none` models a parse failure, which the source catches). -/
structure SourceFile where
  code : String
  tsAst : Option TsAst
  babelAst : Option (List BabelNode)
deriving Repr, DecidableEq

/-- The marker test of the ts-morph type-reference scan
(`get-component-props.ts` lines 474-480). -/
def hasReactPropsMarker (t : String) : Bool :=
  containsStr t "ComponentProps<" ||
  containsStr t "ComponentPropsWithRef<" ||
  containsStr t "ComponentPropsWithoutRef<" ||
  containsStr t "HTMLAttributes<" ||
  containsStr t "HTMLProps<"

/-- The alias synthesized around a matching type reference
(`get-component-props.ts` line 481). -/
def reactRefProp (componentName t : String) : String :=
  "// From React type reference\ntype " ++ componentName ++ "Props = " ++ t ++ ";"

/-- `extractPropsWithTsMorph` (`get-component-props.ts` lines 432-491): on a
parse failure the error is caught and `[]` returned; otherwise matching
interfaces, type aliases, exported declarations and synthesized aliases for
React props type references are collected in source order. -/
def extractPropsWithTsMorph (file : SourceFile) (componentName : String) : List String :=
  match file.tsAst with
  | none => []
  | some ast =>
    ((ast.interfaces.filter fun d => isPropsType d.name componentName).map fun d => d.text) ++
    ((ast.typeAliases.filter fun d => isPropsType d.name componentName).map fun d => d.text) ++
    (ast.exportedDecls.foldr (fun p acc =>
      (if isPropsType p.1 componentName then p.2 else []) ++ acc) []) ++
    (ast.typeRefs.filterMap fun t =>
      if hasReactPropsMarker t then some (reactRefProp componentName t) else none)

/-- The visitor logic of `extractPropsWithBabel` on one traversal event
(`get-component-props.ts` lines 506-535). -/
def babelCollect (componentName : String) : BabelNode → List String
  | BabelNode.iface n t => if isPropsType n componentName then [t] else []
  | BabelNode.alias n t => if isPropsType n componentName then [t] else []
  | BabelNode.exportIface n t => if isPropsType n componentName then [t] else []
  | BabelNode.exportAlias n t => if isPropsType n componentName then [t] else []

/-- `extractPropsWithBabel` (`get-component-props.ts` lines 496-542): parse
failures are caught and give `[]`; otherwise the visitor runs over the
traversal events in order. -/
def extractPropsWithBabel (file : SourceFile) (componentName : String) : List String :=
  match file.babelAst with
  | none => []
  | some nodes => nodes.foldr (fun n acc => babelCollect componentName n ++ acc) []

/-- Strips a literal from the front of a character list. -/
def stripLit : List Char → List Char → Option (List Char)
  | [], s => some s
  | _ :: _, [] => none
  | c :: cs, d :: ds => if c = d then stripLit cs ds else none

/-- Consumes the regex `\s+` (at least one whitespace character, greedily). -/
def wsPlus : List Char → Option (List Char)
  | [] => none
  | c :: rest => if isWsA c then some (rest.dropWhile isWsA) else none

/-- Matches the body of the interface regex of `extractPropsWithRegex`
(`get-component-props.ts` line 553) after the optional `export` prefix:
`interface\s+([A-Za-z0-9_]*Props[A-Za-z0-9_]*)\s*(?:extends\s+[^{]+)?\s*\{[^}]*\}`.
Backtracking into the name run is not modelled. -/
def interfaceCore (s : List Char) : Option (String × List Char) := do
  let r1 ← stripLit "interface".data s
  let r2 ← wsPlus r1
  let nameRun := r2.takeWhile wordCharA
  if nameRun.isEmpty then none else
  if infixAt "Props".data nameRun then
    let r3 := (r2.drop nameRun.length).dropWhile isWsA
    let r4 ←
      match stripLit "extends".data r3 with
      | some re =>
        match wsPlus re with
        | some re2 =>
          let body := re2.takeWhile fun c => c ≠ '\x7b'
          if body.isEmpty then none else some (re2.drop body.length)
        | none => none
      | none => some r3
    let r5 := r4.dropWhile isWsA
    let r6 ← stripLit ['\x7b'] r5
    let content := r6.takeWhile fun c => c ≠ '\x7d'
    let r7 ← stripLit ['\x7d'] (r6.drop content.length)
    pure (String.mk nameRun, r7)
  else none

/-- Matches the body of the type-alias regex of `extractPropsWithRegex`
(`get-component-props.ts` line 563) after the optional `export` prefix:
`type\s+([A-Za-z0-9_]*Props[A-Za-z0-9_]*)\s*=\s*([^;]+);`. -/
def typeAliasCore (s : List Char) : Option (String × List Char) := do
  let r1 ← stripLit "type".data s
  let r2 ← wsPlus r1
  let nameRun := r2.takeWhile wordCharA
  if nameRun.isEmpty then none else
  if infixAt "Props".data nameRun then
    let r3 := (r2.drop nameRun.length).dropWhile isWsA
    let r4 ← stripLit ['='] r3
    let body := r4.takeWhile fun c => c ≠ ';'
    if body.isEmpty then none else
      let r5 ← stripLit [';'] (r4.drop body.length)
      pure (String.mk nameRun, r5)
  else none

/-- Handles the optional `(export\s+)?` prefix shared by both declaration
regexes. -/
def withExport (core : List Char → Option (String × List Char)) (s : List Char) :
    Option (String × List Char) :=
  match stripLit "export".data s with
  | some r1 =>
    match wsPlus r1 with
    | some r2 =>
      match core r2 with
      | some res => some res
      | none => core s
    | none => core s
  | none => core s

/-- Packages a declaration-regex match at the current position into the
captured name and the full matched text (`match[0]`). -/
def mkStep (core : List Char → Option (String × List Char)) (s : List Char) :
    Option (Decl × List Char) :=
  match withExport core s with
  | some (n, rem) => some (⟨n, String.mk (s.take (s.length - rem.length))⟩, rem)
  | none => none

/-- The repeated-`exec` loop of a JS global regex: at each position try a
match; on success continue after it, otherwise advance one character.  All
step functions consume at least one character on success, so fuel
`s.length + 1` is enough. -/
def scanLoop {α : Type} (step : List Char → Option (α × List Char)) :
    Nat → List Char → List α
  | 0, _ => []
  | _ + 1, [] => []
  | fuel + 1, c :: rest =>
    match step (c :: rest) with
    | some (a, rem) => a :: scanLoop step fuel rem
    | none => scanLoop step fuel rest

/-- All matches of the interface regex over a file. -/
def interfaceMatches (code : String) : List Decl :=
  scanLoop (mkStep interfaceCore) (code.data.length + 1) code.data

/-- All matches of the type-alias regex over a file. -/
def typeAliasMatches (code : String) : List Decl :=
  scanLoop (mkStep typeAliasCore) (code.data.length + 1) code.data

/-- A match of `/ComponentProps<[^>]+>/g`: the full matched text and the
captured text between the angle brackets. -/
def stepComponentProps (s : List Char) : Option ((String × String) × List Char) := do
  let r1 ← stripLit "ComponentProps<".data s
  let inner := r1.takeWhile fun c => c ≠ '>'
  if inner.isEmpty then none else
    let r2 ← stripLit ['>'] (r1.drop inner.length)
    pure ((String.mk (s.take (s.length - r2.length)), String.mk inner), r2)

/-- All matches of `/ComponentProps<[^>]+>/g` over a file. -/
def componentPropsMatches (code : String) : List (String × String) :=
  scanLoop stepComponentProps (code.data.length + 1) code.data

/-- `extractPropsWithRegex` (`get-component-props.ts` lines 547-582): the two
declaration regex scans filtered by `isPropsType`, followed by an alias
synthesized for every `ComponentProps<...>` occurrence. -/
def extractPropsWithRegex (file : SourceFile) (componentName : String) : List String :=
  ((interfaceMatches file.code).filter (fun d => isPropsType d.name componentName)).map
      (fun d => d.text) ++
  ((typeAliasMatches file.code).filter (fun d => isPropsType d.name componentName)).map
      (fun d => d.text) ++
  (componentPropsMatches file.code).map
      (fun m => "// From React type reference\ntype " ++ componentName ++ "Props = " ++ m.1 ++ ";")

/-- `extractPropsFromFile` (`get-component-props.ts` lines 587-621): the
three extraction tiers are tried in order; a later tier runs only when every
earlier tier produced no candidate. -/
def extractPropsFromFile (file : SourceFile) (componentName : String) : List String :=
  let allProps := extractPropsWithTsMorph file componentName
  let allProps := if allProps.length = 0 then extractPropsWithBabel file componentName else allProps
  let allProps := if allProps.length = 0 then extractPropsWithRegex file componentName else allProps
  allProps

/-- The button-specific block of `createDefaultPropsInterface`
(`get-component-props.ts` lines 638-658). -/
def gcpButtonProps : String :=
  "\n  /** Button variant */\n  variant?: \"default\" | \"destructive\" | \"outline\" | \"secondary\" | \"ghost\" | \"link\";\n  \n  /** Button size */\n  size?: \"default\" | \"sm\" | \"lg\" | \"icon\";\n  \n  /** Whether the button is disabled */\n  disabled?: boolean;\n  \n  /** HTML button type attribute */\n  type?: \"button\" | \"submit\" | \"reset\";\n  \n  /** Click handler */\n  onClick?: (event: React.MouseEvent<HTMLButtonElement>) => void;\n  \n  /** Whether button shows loading spinner */\n  isLoading?: boolean;\n  \n  /** Button HTML element ref */\n  ref?: React.ForwardedRef<HTMLButtonElement>;"

/-- The accordion-specific block (`get-component-props.ts` lines 661-675). -/
def gcpAccordionProps : String :=
  "\n  /** Whether accordion can have multiple items open */\n  type?: \"single\" | \"multiple\";\n  \n  /** Default active value */\n  defaultValue?: string | string[];\n  \n  /** Controlled active value */\n  value?: string | string[];\n  \n  /** Callback when value changes */\n  onValueChange?: (value: string | string[]) => void;\n  \n  /** Whether accordion items animate */\n  collapsible?: boolean;"

/-- The dialog-specific block (`get-component-props.ts` lines 678-689). -/
def gcpDialogProps : String :=
  "\n  /** Whether the dialog is open */\n  open?: boolean;\n  \n  /** Callback when open state changes */\n  onOpenChange?: (open: boolean) => void;\n  \n  /** Dialog position */\n  position?: \"top\" | \"right\" | \"bottom\" | \"left\";\n  \n  /** Whether clicking overlay closes the dialog */\n  modal?: boolean;"

/-- The form-specific block (`get-component-props.ts` lines 692-703). -/
def gcpFormProps : String :=
  "\n  /** Form submission handler */\n  onSubmit?: React.FormEventHandler<HTMLFormElement>;\n  \n  /** Whether form is in loading state */\n  loading?: boolean;\n  \n  /** Form validation schema */\n  schema?: any;\n  \n  /** Default form values */\n  defaultValues?: Record<string, any>;"

/-- The select-specific block (`get-component-props.ts` lines 706-720). -/
def gcpSelectProps : String :=
  "\n  /** Available select options */\n  options?: \x7b label: string; value: string | number \x7d[];\n  \n  /** Currently selected value */\n  value?: string | number;\n  \n  /** Callback when selection changes */\n  onValueChange?: (value: string | number) => void;\n  \n  /** Whether select is disabled */\n  disabled?: boolean;\n  \n  /** Placeholder text */\n  placeholder?: string;"

/-- The input-specific block (`get-component-props.ts` lines 723-743). -/
def gcpInputProps : String :=
  "\n  /** Input type */\n  type?: string;\n  \n  /** Current input value */\n  value?: string;\n  \n  /** Default input value */\n  defaultValue?: string;\n  \n  /** Callback when value changes */\n  onChange?: React.ChangeEventHandler<HTMLInputElement>;\n  \n  /** Whether input is disabled */\n  disabled?: boolean;\n  \n  /** Placeholder text */\n  placeholder?: string;\n  \n  /** Input HTML element ref */\n  ref?: React.Ref<HTMLInputElement>;"

/-- The heuristic chain of `createDefaultPropsInterface`
(`get-component-props.ts` lines 637-744), selecting the component-specific
block by case-insensitive substring tests on the component name. -/
def gcpSpecificProps (componentName : String) : String :=
  if ciHas componentName "button" then gcpButtonProps
  else if ciHas componentName "accordion" then gcpAccordionProps
  else if ciHas componentName "dialog" || ciHas componentName "modal" || ciHas componentName "drawer" then gcpDialogProps
  else if ciHas componentName "form" then gcpFormProps
  else if ciHas componentName "select" || ciHas componentName "dropdown" then gcpSelectProps
  else if ciHas componentName "input" then gcpInputProps
  else ""

/-- The template literal returned by `createDefaultPropsInterface`
(`get-component-props.ts` lines 746-759), as a function of the interpolated
parts. -/
def gcpDefaultTemplate (pascalCaseName specificProps : String) : String :=
  "// Default props interface based on common Shadcn patterns\nexport interface " ++
  pascalCaseName ++
  "Props \x7b\n  /** The content to render inside the component */\n  children?: React.ReactNode;\n  \n  /** Additional CSS classes to apply to the component */\n  className?: string;" ++
  specificProps ++
  "\n  \n  /** Additional HTML attributes */\n  [key: string]: any;\n\x7d\n\n// Note: This is a suggested structure based on common Shadcn component patterns.\n// You should review the component implementation to determine the actual props it accepts."

/-- `createDefaultPropsInterface` (`get-component-props.ts` lines 626-760). -/
def createDefaultPropsInterface (componentName : String) : String :=
  gcpDefaultTemplate (pascalCaseGcp componentName) (gcpSpecificProps componentName)

/-- The candidate-list stage of `extractAllComponentProps`
(`get-component-props.ts` lines 785-812): per-file extraction results are
concatenated (empty per-file results are skipped), and when nothing at all
was extracted the synthesized default interface is the sole candidate. -/
def extractAllComponentPropsCandidates (files : List SourceFile) (componentName : String) :
    List String :=
  let allProps := files.foldl (fun acc f =>
    let fileProps := extractPropsFromFile f componentName
    if 0 < fileProps.length then acc ++ fileProps else acc) []
  if allProps.isEmpty then [createDefaultPropsInterface componentName] else allProps

/-- `ComponentDependencies` of `component-registry.ts` (lines 6-15). -/
structure ComponentDependencies where
  pkg : String
  primitive : String
  subComponents : List String
  additionalDeps : List String
deriving Repr, DecidableEq

/-- `componentRegistry` of `component-registry.ts` (lines 17-252), as an
association list in declaration order. -/
def componentRegistry : List (String × ComponentDependencies) :=
  [("accordion", ⟨"@radix-ui/react-accordion", "AccordionPrimitive", ["Root", "Item", "Trigger", "Content"], ["lucide-react"]⟩),
   ("alert-dialog", ⟨"@radix-ui/react-alert-dialog", "AlertDialogPrimitive", ["Root", "Trigger", "Content", "Header", "Footer", "Title", "Description", "Cancel", "Action"], []⟩),
   ("aspect-ratio", ⟨"@radix-ui/react-aspect-ratio", "AspectRatioPrimitive", [], []⟩),
   ("avatar", ⟨"@radix-ui/react-avatar", "AvatarPrimitive", ["Root", "Image", "Fallback"], []⟩),
   ("badge", ⟨"", "", [], ["class-variance-authority"]⟩),
   ("button", ⟨"@radix-ui/react-slot", "Slot", [], ["class-variance-authority"]⟩),
   ("calendar", ⟨"react-day-picker", "DayPicker", [], ["date-fns"]⟩),
   ("card", ⟨"", "", ["Header", "Title", "Description", "Content", "Footer"], []⟩),
   ("checkbox", ⟨"@radix-ui/react-checkbox", "CheckboxPrimitive", ["Root", "Indicator"], ["lucide-react"]⟩),
   ("collapsible", ⟨"@radix-ui/react-collapsible", "CollapsiblePrimitive", ["Root", "Trigger", "Content"], []⟩),
   ("command", ⟨"cmdk", "Command", ["Empty", "Group", "Input", "Item", "List", "Loading", "Dialog", "Separator"], ["lucide-react"]⟩),
   ("context-menu", ⟨"@radix-ui/react-context-menu", "ContextMenuPrimitive", ["Root", "Trigger", "Portal", "Content", "Item", "CheckboxItem", "RadioItem", "Group", "Label", "Separator"], ["lucide-react"]⟩),
   ("date-picker", ⟨"react-day-picker", "DayPicker", [], ["date-fns"]⟩),
   ("dialog", ⟨"@radix-ui/react-dialog", "DialogPrimitive", ["Root", "Trigger", "Portal", "Close", "Content", "Header", "Footer", "Title", "Description"], ["lucide-react"]⟩),
   ("drawer", ⟨"@radix-ui/react-dialog", "DialogPrimitive", ["Root", "Trigger", "Portal", "Close", "Content", "Header", "Footer", "Title", "Description"], ["vaul"]⟩),
   ("dropdown-menu", ⟨"@radix-ui/react-dropdown-menu", "DropdownMenuPrimitive", ["Root", "Trigger", "Group", "Portal", "Content", "Item", "CheckboxItem", "RadioGroup", "RadioItem", "Label", "Separator"], ["lucide-react"]⟩),
   ("form", ⟨"", "", ["Item", "Label", "Control", "Description", "Message"], ["react-hook-form", "@hookform/resolvers", "zod"]⟩),
   ("hover-card", ⟨"@radix-ui/react-hover-card", "HoverCardPrimitive", ["Root", "Trigger", "Portal", "Content"], []⟩),
   ("input", ⟨"", "", [], []⟩),
   ("label", ⟨"@radix-ui/react-label", "LabelPrimitive", [], []⟩),
   ("menubar", ⟨"@radix-ui/react-menubar", "MenubarPrimitive", ["Root", "Menu", "Trigger", "Portal", "Content", "Item", "CheckboxItem", "RadioGroup", "RadioItem", "Label", "Separator", "Group"], ["lucide-react"]⟩),
   ("navigation-menu", ⟨"@radix-ui/react-navigation-menu", "NavigationMenuPrimitive", ["Root", "List", "Item", "Trigger", "Content", "Link"], []⟩),
   ("not-found", ⟨"", "", [], ["lucide-react"]⟩),
   ("popover", ⟨"@radix-ui/react-popover", "PopoverPrimitive", ["Root", "Trigger", "Content"], []⟩),
   ("progress", ⟨"@radix-ui/react-progress", "ProgressPrimitive", ["Root"], []⟩),
   ("radio-group", ⟨"@radix-ui/react-radio-group", "RadioGroupPrimitive", ["Root", "Item", "Indicator"], []⟩),
   ("scroll-area", ⟨"@radix-ui/react-scroll-area", "ScrollAreaPrimitive", ["Root", "Viewport", "Scrollbar", "Thumb", "Corner"], []⟩),
   ("select", ⟨"@radix-ui/react-select", "SelectPrimitive", ["Root", "Group", "Value", "Trigger", "Content", "Label", "Item", "Separator"], ["lucide-react"]⟩),
   ("separator", ⟨"@radix-ui/react-separator", "SeparatorPrimitive", [], []⟩),
   ("sheet", ⟨"@radix-ui/react-dialog", "DialogPrimitive", ["Root", "Trigger", "Portal", "Close", "Content", "Header", "Footer", "Title", "Description"], []⟩),
   ("skeleton", ⟨"", "", [], []⟩),
   ("slider", ⟨"@radix-ui/react-slider", "SliderPrimitive", ["Root", "Track", "Range", "Thumb"], []⟩),
   ("switch", ⟨"@radix-ui/react-switch", "SwitchPrimitive", ["Root", "Thumb"], []⟩),
   ("tabs", ⟨"@radix-ui/react-tabs", "TabsPrimitive", ["Root", "List", "Trigger", "Content"], []⟩),
   ("textarea", ⟨"", "", [], []⟩),
   ("toast", ⟨"@radix-ui/react-toast", "ToastPrimitive", ["Root", "Provider", "Viewport", "Title", "Description", "Action", "Close"], []⟩),
   ("toggle", ⟨"@radix-ui/react-toggle", "TogglePrimitive", ["Root"], []⟩),
   ("toggle-group", ⟨"@radix-ui/react-toggle-group", "ToggleGroupPrimitive", ["Root", "Item"], []⟩),
   ("tooltip", ⟨"@radix-ui/react-tooltip", "TooltipPrimitive", ["Root", "Provider", "Trigger", "Content"], []⟩)]

/-- JS object property lookup `componentRegistry[key] || null`. -/
def lookupReg : List (String × ComponentDependencies) → String → Option ComponentDependencies
  | [], _ => none
  | (k, v) :: rest, key => if k = key then some v else lookupReg rest key

/-- `getComponentDependencies` of `component-registry.ts` (lines 257-262):
normalizes the name to kebab-case, then looks it up in the registry. -/
def getComponentDependencies (componentName : String) : Option ComponentDependencies :=
  let normalizedName := normalizeKey componentName
  lookupReg componentRegistry normalizedName

/-- Worker for `uniqFirst`, carrying the elements already emitted. -/
def uniqFirstAux (seen : List String) : List String → List String
  | [] => []
  | x :: xs =>
    if seen.contains x then uniqFirstAux seen xs
    else x :: uniqFirstAux (x :: seen) xs

/-- Ramda `uniqBy(identity, list)` as used in `extractComponentProps`: keeps
the first occurrence of each element. -/
def uniqFirst (l : List String) : List String :=
  uniqFirstAux [] l

/-- JS global literal replace `s.replace(new RegExp(pat, "g"), repl)` for a
pattern without regex metacharacters: every non-overlapping occurrence is
replaced, scanning left to right. -/
def replaceAllL (pat repl : List Char) : Nat → List Char → List Char
  | 0, s => s
  | _ + 1, [] => []
  | fuel + 1, c :: rest =>
    if pat.isPrefixOf (c :: rest) && !pat.isEmpty then
      repl ++ replaceAllL pat repl fuel ((c :: rest).drop pat.length)
    else c :: replaceAllL pat repl fuel rest

/-- String version of `replaceAllL`. -/
def replaceAllStr (s pat repl : String) : String :=
  String.mk (replaceAllL pat.data repl.data (s.data.length + 1) s.data)

/-- ASCII letter (`[A-Za-z]`). -/
def isAlphaA (c : Char) : Bool :=
  isLowerA c || isUpperA c

/-- Consumes `\s+` followed by a literal, with the greedy backtracking of the
JS engine: the longest whitespace run (of at least one character) after which
the literal matches wins. -/
def wsThenLit (lit : List Char) (s : List Char) : Option (List Char) :=
  let n := (s.takeWhile isWsA).length
  (List.range n).reverse.findSome? fun i => stripLit lit (s.drop (i + 1))

/-- A match of the rename regex `(type|interface)\s+<pascal>Props` at the
current position, returning the captured keyword and the remainder after the
match. -/
def headerMatchAt (pascal : String) (s : List Char) : Option (String × List Char) :=
  (match stripLit "type".data s with
   | some r1 => (wsThenLit (pascal ++ "Props").data r1).map fun r => ("type", r)
   | none => none) <|>
  (match stripLit "interface".data s with
   | some r1 => (wsThenLit (pascal ++ "Props").data r1).map fun r => ("interface", r)
   | none => none)

/-- First-match-only replacement, as JS `String.prototype.replace` with a
non-global regex: the leftmost match of `(type|interface)\s+<pascal>Props` is
replaced by `$1 <pascal><sub>Props`; everything else is untouched. -/
def replaceFirstHeaderAux (pascal sub : String) : List Char → List Char
  | [] => []
  | c :: rest =>
    match headerMatchAt pascal (c :: rest) with
    | some (kw, after) => (kw ++ " " ++ pascal ++ sub ++ "Props").data ++ after
    | none => c :: replaceFirstHeaderAux pascal sub rest

/-- The renaming substitution of `deduplicateAndNameProps`
(`src/unnamed/part_000` lines 814-819). -/
def replaceFirstHeader (pascal sub : String) (text : String) : String :=
  String.mk (replaceFirstHeaderAux pascal sub text.data)

/-- Observer used in statements: the type name rendered by a declaration
text, i.e. the identifier following a leading `interface` or `type` keyword. -/
def renderedName (t : String) : Option String :=
  let afterKw :=
    match stripLit "interface".data t.data with
    | some r => some r
    | none => stripLit "type".data t.data
  match afterKw with
  | none => none
  | some r =>
    match wsPlus r with
    | none => none
    | some r2 =>
      let nm := r2.takeWhile wordCharA
      if nm.isEmpty then none else some (String.mk nm)

/-- A word boundary of the `change-case` splitter: it splits between a
lower-case letter or digit and an upper-case letter, and between an
upper-case letter and an upper-case letter followed by a lower-case one. -/
def ccCaseSplitAux : Option Char → List Char → List Char → List (List Char)
  | _, [], cur => if cur.isEmpty then [] else [cur.reverse]
  | prev, c :: rest, cur =>
    let boundary :=
      match prev with
      | some p =>
        ((isLowerA p || isDigitA p) && isUpperA c) ||
        (isUpperA p && isUpperA c &&
          (match rest with | r :: _ => isLowerA r | [] => false))
      | none => false
    if boundary && !cur.isEmpty then
      cur.reverse :: ccCaseSplitAux (some c) rest [c]
    else ccCaseSplitAux (some c) rest (c :: cur)

/-- The words recognized by the `change-case` library in an identifier:
non-alphanumeric characters separate words, and case boundaries split
words further. -/
def ccWords (s : String) : List (List Char) :=
  (((splitNonAlnumAux s.data []).filter fun w => ¬w.isEmpty).map
    fun w => ccCaseSplitAux none w []).flatten

/-- Joins strings with dashes. -/
def joinDash : List String → String
  | [] => ""
  | [s] => s
  | s :: rest => s ++ "-" ++ joinDash rest

/-- Model of `paramCase` from the `change-case` library: words, lower-cased,
joined by dashes. -/
def paramCase (s : String) : String :=
  joinDash ((ccWords s).map fun w => String.mk (w.map jsLower))

/-- Model of `pascalCase` from the `change-case` library: words, lower-cased
and capitalized, concatenated. -/
def pascalCase (s : String) : String :=
  String.join ((ccWords s).map fun w => capLower (String.mk w))

namespace P0

/-- `ComponentData` of `src/unnamed/part_000` (lines 39-46).  The two
dependency fields are carried for completeness; the claims below do not
inspect them. -/
structure ComponentData where
  componentName : String
  normalizedName : String
  pascalName : String
  subComponents : List String
  dependencies : List String
  primitiveImports : List (String × String)
deriving Repr, DecidableEq

/-- `normalizeComponentName` of `src/unnamed/part_000` (lines 51-74): URL
inputs keep their last path segment (query/fragment stripped, falling back to
the whole input when that segment is empty), and the kebab- and Pascal-case
forms are derived with the `change-case` library. -/
def normalizeComponentName (input : String) : ComponentData :=
  let componentName :=
    if "http".data.isPrefixOf input.data then
      let seg := String.mk
        ((((splitSlash input).getLast?).getD "").data.takeWhile fun c => ¬(c = '?' ∨ c = '#'))
      if seg = "" then input else seg
    else input
  { componentName := componentName
    normalizedName := paramCase componentName
    pascalName := pascalCase componentName
    subComponents := []
    dependencies := []
    primitiveImports := [] }

/-- The input validation of `main` in `src/unnamed/part_000` (lines
1392-1397): an empty identifier raises before the normalizer runs. -/
def mainNormalize (input : String) : Except String ComponentData :=
  if input = "" then Except.error "No component name or URL provided"
  else Except.ok (normalizeComponentName input)

/-- `isPropsType` of `src/unnamed/part_000` (lines 733-750): a name is
props-related when it contains `Props`, or equals `props` case-insensitively,
or contains `props` case-insensitively together with one of the raw,
normalized or Pascal component names. -/
def isPropsType (name : String) (cd : ComponentData) : Bool :=
  let lowerName := lowerStr name
  let lowerComponentName := lowerStr cd.componentName
  let lowerNormalizedName := lowerStr cd.normalizedName
  let lowerPascalName := lowerStr cd.pascalName
  containsStr name "Props" ||
  lowerName == "props" ||
  (containsStr lowerName "props" &&
    (containsStr lowerName lowerComponentName ||
     containsStr lowerName lowerNormalizedName ||
     containsStr lowerName lowerPascalName))

/-- Scanner for `extractSubComponentName` (`src/unnamed/part_000` lines
755-762): the first occurrence of `\.([A-Za-z]+)` followed by `>`, `,`,
whitespace or the end of the text. -/
def subNameGo : List Char → Option String
  | [] => none
  | '.' :: rest =>
    let letters := rest.takeWhile isAlphaA
    if letters.isEmpty then subNameGo rest
    else
      match rest.drop letters.length with
      | [] => some (String.mk letters)
      | a :: _ =>
        if a = '>' || a = ',' || isWsA a then some (String.mk letters)
        else subNameGo rest
  | _ :: rest => subNameGo rest

/-- `extractSubComponentName` of `src/unnamed/part_000`. -/
def extractSubComponentName (text : String) : Option String :=
  subNameGo text.data

/-- A prop candidate of `src/unnamed/part_000`: declaration text plus the
sub-component tag it was attributed to (`null` for the root). -/
structure FoundProp where
  text : String
  subComponent : Option String
deriving Repr, DecidableEq

/-- `prop.subComponent || "Main"`: the grouping key of
`deduplicateAndNameProps` (a falsy — absent or empty — tag maps to the
`Main` group). -/
def groupKey (p : FoundProp) : String :=
  match p.subComponent with
  | some s => if s = "" then "Main" else s
  | none => "Main"

/-- The JS object `propsBySubComponent` built by `deduplicateAndNameProps`
(lines 796-803): keys in first-seen order, each carrying the texts of its
group's candidates in order. -/
def dedupGroups (l : List FoundProp) : List (String × List String) :=
  (uniqFirst (l.map groupKey)).map fun k =>
    (k, (l.filter fun p => groupKey p = k).map fun p => p.text)

/-- `deduplicateAndNameProps` of `src/unnamed/part_000` (lines 768-825):
lists of at most one candidate pass through; otherwise candidates are grouped
by tag and every group other than `Main` is renamed via the first-match
substitution, unless it is the only group. -/
def deduplicateAndNameProps (foundProps : List FoundProp) (pascalName : String) : List String :=
  if foundProps.length ≤ 1 then foundProps.map fun p => p.text
  else
    let groups := dedupGroups foundProps
    (groups.map fun g =>
      if g.1 = "Main" ∨ groups.length = 1 then g.2
      else g.2.map (replaceFirstHeader pascalName g.1)).flatten

/-- The regex fallback of `extractPropsFromFile` in `src/unnamed/part_000`
(lines 930-962), run only when the AST pass found nothing: the same two
declaration regexes as the other script, plus a `ComponentProps<...>` scan
that attributes a sub-component tag extracted from the captured argument. -/
def regexFallback (code : String) (cd : ComponentData) : List FoundProp :=
  ((interfaceMatches code).filter fun d => isPropsType d.name cd).map
      (fun d => FoundProp.mk d.text none) ++
  ((typeAliasMatches code).filter fun d => isPropsType d.name cd).map
      (fun d => FoundProp.mk d.text none) ++
  (componentPropsMatches code).map fun m =>
    let sub := extractSubComponentName m.2
    FoundProp.mk
      ("// From React type reference\ntype " ++ cd.pascalName ++ (sub.getD "") ++ "Props = " ++
        m.1 ++ ";")
      sub

/-- `extractPropsFromFile` of `src/unnamed/part_000` (lines 830-982): the
ts-morph pass collects matching interfaces, type aliases and exports (fixing
hyphenated type names), synthesizes tagged aliases for `ComponentProps`-style
references and untagged ones for HTML-attribute references; when it finds
nothing the regex fallback runs; the result goes through
`deduplicateAndNameProps`.  A parse failure is caught and yields `[]`. -/
def extractPropsFromFile (file : SourceFile) (cd : ComponentData) : List String :=
  match file.tsAst with
  | none => []
  | some ast =>
    let fix : String → String := fun t =>
      replaceAllStr t (cd.componentName ++ "Props") (cd.pascalName ++ "Props")
    let fromInterfaces := (ast.interfaces.filter fun d => isPropsType d.name cd).map
      fun d => FoundProp.mk (fix d.text) none
    let fromAliases := (ast.typeAliases.filter fun d => isPropsType d.name cd).map
      fun d => FoundProp.mk (fix d.text) none
    let fromExports := (ast.exportedDecls.map fun p =>
      if isPropsType p.1 cd then p.2.map fun t => FoundProp.mk (fix t) none else []).flatten
    let fromRefs := ast.typeRefs.filterMap fun t =>
      if containsStr t "ComponentProps<" || containsStr t "ComponentPropsWithRef<" ||
          containsStr t "ComponentPropsWithoutRef<" then
        let sub := extractSubComponentName t
        some (FoundProp.mk
          ("// From React type reference\ntype " ++ cd.pascalName ++ (sub.getD "") ++
            "Props = " ++ t ++ ";")
          sub)
      else none
    let fromHtml := ast.typeRefs.filterMap fun t =>
      if containsStr t "HTMLAttributes<" || containsStr t "HTMLProps<" then
        some (FoundProp.mk
          ("// From HTML attributes\ntype " ++ cd.pascalName ++ "Props = " ++ t ++ ";") none)
      else none
    let foundProps := fromInterfaces ++ fromAliases ++ fromExports ++ fromRefs ++ fromHtml
    let foundProps := if foundProps.isEmpty then regexFallback file.code cd else foundProps
    deduplicateAndNameProps foundProps cd.pascalName

/-- Button block of `createSingleComponentProps` (`src/unnamed/part_000`
lines 1031-1042). -/
def buttonBlock : String :=
  "\n  /** Button variant */\n  variant?: \"default\" | \"destructive\" | \"outline\" | \"secondary\" | \"ghost\" | \"link\";\n  \n  /** Button size */\n  size?: \"default\" | \"sm\" | \"lg\" | \"icon\";\n  \n  /** Whether the button is disabled */\n  disabled?: boolean;\n  \n  /** Click handler */\n  onClick?: (event: React.MouseEvent<HTMLButtonElement>) => void;"

/-- Accordion root block (lines 1045-1057). -/
def accordionRootBlock : String :=
  "\n  /** Whether accordion can have multiple items open */\n  type?: \"single\" | \"multiple\";\n  \n  /** Default active value */\n  defaultValue?: string | string[];\n  \n  /** Callback when value changes */\n  onValueChange?: (value: string | string[]) => void;\n  \n  /** Whether accordion items are collapsible */\n  collapsible?: boolean;"

/-- Accordion item block (lines 1059-1065). -/
def accordionItemBlock : String :=
  "\n  /** Value of this accordion item */\n  value: string;\n  \n  /** Whether this item is disabled */\n  disabled?: boolean;"

/-- Accordion trigger block (lines 1067-1073). -/
def accordionTriggerBlock : String :=
  "\n  /** Whether trigger is disabled */\n  disabled?: boolean;\n  \n  /** Accessibility label */\n  asChild?: boolean;"

/-- Accordion content block (lines 1075-1078). -/
def accordionContentBlock : String :=
  "\n  /** Whether to force mounting when closed (for SEO/accessibility) */\n  forceMount?: boolean;"

/-- Dialog root block (lines 1082-1088). -/
def dialogRootBlock : String :=
  "\n  /** Whether the dialog is open */\n  open?: boolean;\n  \n  /** Callback when open state changes */\n  onOpenChange?: (open: boolean) => void;"

/-- Dialog content block (lines 1090-1096). -/
def dialogContentBlock : String :=
  "\n  /** Whether to force mounting when closed */\n  forceMount?: boolean;\n  \n  /** Side from which dialog appears */\n  side?: \"left\" | \"right\" | \"top\" | \"bottom\";"

/-- Form block (lines 1099-1105). -/
def formBlock : String :=
  "\n  /** Form submission handler */\n  onSubmit?: React.FormEventHandler<HTMLFormElement>;\n  \n  /** Form validation schema */\n  defaultValues?: Record<string, any>;"

/-- Select block (lines 1107-1116). -/
def selectBlock : String :=
  "\n  /** Currently selected value */\n  value?: string | number;\n  \n  /** Callback when selection changes */\n  onValueChange?: (value: string | number) => void;\n  \n  /** Placeholder text */\n  placeholder?: string;"

/-- Input block (lines 1118-1130). -/
def inputBlock : String :=
  "\n  /** Input type */\n  type?: string;\n  \n  /** Current input value */\n  value?: string;\n  \n  /** Callback when value changes */\n  onChange?: React.ChangeEventHandler<HTMLInputElement>;\n  \n  /** Placeholder text */\n  placeholder?: string;"

/-- Card block (lines 1132-1138). -/
def cardBlock : String :=
  "\n  /** Whether to show a border */\n  bordered?: boolean;\n  \n  /** Card appearance variant */\n  variant?: \"default\" | \"secondary\" | \"outline\";"

/-- Not-found block (lines 1140-1155). -/
def notFoundBlock : String :=
  "\n  /** Title to display */\n  title?: string;\n  \n  /** Description message */\n  description?: string;\n  \n  /** URL to redirect to when user clicks \"Home\" */\n  homeUrl?: string;\n  \n  /** Custom action button text */\n  buttonText?: string;\n  \n  /** Handler for action button */\n  onAction?: () => void;"

/-- The heuristic chain of `createSingleComponentProps` (`src/unnamed/part_000`
lines 1030-1156), keyed on the lower-cased component name and the
sub-component tag. -/
def heuristicBlock (lowerName : String) (subComponent : Option String) : String :=
  if containsStr lowerName "button" then buttonBlock
  else if containsStr lowerName "accordion" then
    if (subComponent.getD "") = "" || subComponent = some "Root" then accordionRootBlock
    else if subComponent = some "Item" then accordionItemBlock
    else if subComponent = some "Trigger" then accordionTriggerBlock
    else if subComponent = some "Content" then accordionContentBlock
    else ""
  else if containsStr lowerName "dialog" || containsStr lowerName "modal" ||
      containsStr lowerName "drawer" then
    if (subComponent.getD "") = "" || subComponent = some "Root" then dialogRootBlock
    else if subComponent = some "Content" then dialogContentBlock
    else ""
  else if containsStr lowerName "form" then formBlock
  else if containsStr lowerName "select" || containsStr lowerName "dropdown" then selectBlock
  else if containsStr lowerName "input" then inputBlock
  else if containsStr lowerName "card" then cardBlock
  else if containsStr lowerName "not-found" then notFoundBlock
  else ""

/-- The template literal returned by `createSingleComponentProps`
(`src/unnamed/part_000` lines 1158-1168), as a function of the interpolated
parts. -/
def singleTemplate (description typeName specificProps : String) : String :=
  "// " ++ description ++
  "\nexport interface " ++ typeName ++
  " \x7b\n  /** The content to render inside the component */\n  children?: React.ReactNode;\n  \n  /** Additional CSS classes to apply to the component */\n  className?: string;" ++
  specificProps ++
  "\n  \n  /** Additional HTML attributes */\n  [key: string]: any;\n\x7d"

/-- `createSingleComponentProps` of `src/unnamed/part_000` (lines 1014-1169). -/
def createSingleComponentProps (cd : ComponentData) (subComponent : Option String) : String :=
  let lowerName := lowerStr cd.componentName
  let typeName :=
    match subComponent with
    | some sub => if sub = "" then cd.pascalName ++ "Props" else cd.pascalName ++ sub ++ "Props"
    | none => cd.pascalName ++ "Props"
  let description :=
    match subComponent with
    | some sub =>
      if sub = "" then "Default props interface for " ++ cd.pascalName
      else "Props for " ++ cd.pascalName ++ " " ++ sub ++ " sub-component"
    | none => "Default props interface for " ++ cd.pascalName
  singleTemplate description typeName (heuristicBlock lowerName subComponent)

/-- `createDefaultPropsInterface` of `src/unnamed/part_000` (lines 987-1009):
one root declaration, plus one per known sub-component. -/
def createDefaultPropsInterface (cd : ComponentData) : List String :=
  if 0 < cd.subComponents.length then
    createSingleComponentProps cd none ::
      cd.subComponents.map fun sub => createSingleComponentProps cd (some sub)
  else [createSingleComponentProps cd none]

/-- The candidate-list stage of `extractComponentProps`
(`src/unnamed/part_000` lines 1258-1302): per-file candidates are
concatenated, the synthesized defaults substitute when nothing was found, and
exact textual duplicates are removed keeping first occurrences. -/
def extractComponentPropsCandidates (files : List SourceFile) (cd : ComponentData) :
    List String :=
  let allProps := (files.map fun f => extractPropsFromFile f cd).flatten
  let allProps := if allProps.isEmpty then createDefaultPropsInterface cd else allProps
  uniqFirst allProps

end P0

/-- The "looks like a props type" predicate as the specification words it
(§4.3): name equals the props marker word, or contains it, or
case-insensitively contains one of the raw/normalized/Pascal component names
together with a props-or-attributes marker word.  Written from the
specification for comparison with the implementations. -/
def isPropsTypeSpec (name raw normalized pascal : String) : Bool :=
  name == "Props" ||
  containsStr name "Props" ||
  ((containsStr (lowerStr name) (lowerStr raw) ||
    containsStr (lowerStr name) (lowerStr normalized) ||
    containsStr (lowerStr name) (lowerStr pascal)) &&
   (containsStr (lowerStr name) "props" || containsStr (lowerStr name) "attributes"))

/-- Occurrence count of a declaration text in a candidate list. -/
def countOcc (t : String) (l : List String) : Nat :=
  (l.filter fun y => y = t).length

theorem contains_iff_memS {a : String} {l : List String} : l.contains a = true ↔ a ∈ l :=
  ⟨List.mem_of_elem_eq_true, List.elem_eq_true_of_mem⟩

theorem mem_uniqFirstAux {a : String} : ∀ (l seen : List String),
    a ∈ uniqFirstAux seen l ↔ a ∈ l ∧ a ∉ seen := by
  intro l
  induction l with
  | nil => intro seen; simp [uniqFirstAux]
  | cons x xs ih =>
    intro seen
    rw [uniqFirstAux]
    by_cases hx : seen.contains x
    · have hxs : x ∈ seen := contains_iff_memS.1 hx
      rw [if_pos hx, ih seen]
      constructor
      · rintro ⟨h1, h2⟩
        exact ⟨List.mem_cons_of_mem _ h1, h2⟩
      · rintro ⟨h1, h2⟩
        rcases List.mem_cons.1 h1 with rfl | h1
        · exact absurd hxs h2
        · exact ⟨h1, h2⟩
    · have hxs : x ∉ seen := fun hm => hx (contains_iff_memS.2 hm)
      rw [if_neg hx]
      simp only [List.mem_cons, ih (x :: seen)]
      constructor
      · rintro (rfl | ⟨h1, h2⟩)
        · exact ⟨Or.inl rfl, hxs⟩
        · exact ⟨Or.inr h1, fun hs => h2 (Or.inr hs)⟩
      · rintro ⟨h1, h2⟩
        by_cases hax : a = x
        · exact Or.inl hax
        · rcases h1 with rfl | h1
          · exact Or.inl rfl
          · refine Or.inr ⟨h1, fun hs => ?_⟩
            rcases hs with rfl | hs
            · exact hax rfl
            · exact h2 hs

theorem mem_uniqFirst {a : String} {l : List String} : a ∈ uniqFirst l ↔ a ∈ l := by
  unfold uniqFirst
  rw [mem_uniqFirstAux]
  simp

theorem countOcc_cons (t x : String) (l : List String) :
    countOcc t (x :: l) = (if x = t then 1 else 0) + countOcc t l := by
  by_cases h : x = t <;> simp [countOcc, List.filter, h, Nat.add_comm]

theorem countOcc_uniqFirstAux (t : String) : ∀ (l seen : List String),
    countOcc t (uniqFirstAux seen l) = if t ∈ l ∧ t ∉ seen then 1 else 0 := by
  intro l
  induction l with
  | nil => intro seen; simp [uniqFirstAux, countOcc]
  | cons x xs ih =>
    intro seen
    rw [uniqFirstAux]
    by_cases hx : seen.contains x
    · have hxs : x ∈ seen := contains_iff_memS.1 hx
      rw [if_pos hx, ih seen]
      by_cases hax : t = x
      · subst hax
        simp [hxs]
      · simp [List.mem_cons, hax]
    · have hxs : x ∉ seen := fun hm => hx (contains_iff_memS.2 hm)
      rw [if_neg hx, countOcc_cons, ih (x :: seen)]
      by_cases hax : x = t
      · subst hax
        rw [if_pos rfl]
        rw [if_neg (by simp), if_pos (by simp [hxs])]
      · have hta : ¬t = x := fun h => hax h.symm
        rw [if_neg hax, Nat.zero_add]
        by_cases htm : t ∈ xs ∧ t ∉ seen
        · rw [if_pos ⟨htm.1, by simp [hta, htm.2]⟩,
            if_pos ⟨List.mem_cons_of_mem _ htm.1, htm.2⟩]
        · rw [if_neg (by
              rintro ⟨h1, h2⟩
              exact htm ⟨h1, fun hs => h2 (List.mem_cons_of_mem _ hs)⟩),
            if_neg (by
              rintro ⟨h1, h2⟩
              rcases List.mem_cons.1 h1 with rfl | h1
              · exact hta rfl
              · exact htm ⟨h1, h2⟩)]

theorem countOcc_uniqFirst (t : String) (l : List String) :
    countOcc t (uniqFirst l) = if t ∈ l then 1 else 0 := by
  unfold uniqFirst
  rw [countOcc_uniqFirstAux]
  simp

theorem uniqFirst_ne_nil {l : List String} (h : l ≠ []) : uniqFirst l ≠ [] := by
  cases l with
  | nil => exact absurd rfl h
  | cons x xs =>
    unfold uniqFirst uniqFirstAux
    rw [if_neg (by simp)]
    exact List.cons_ne_nil _ _

theorem length_uniqFirstAux_le : ∀ (l seen : List String),
    (uniqFirstAux seen l).length ≤ l.length := by
  intro l
  induction l with
  | nil => intro seen; simp [uniqFirstAux]
  | cons x xs ih =>
    intro seen
    rw [uniqFirstAux]
    by_cases hx : seen.contains x
    · rw [if_pos hx]
      exact Nat.le_trans (ih seen) (Nat.le_succ _)
    · rw [if_neg hx]
      exact Nat.succ_le_succ (ih (x :: seen))

theorem length_uniqFirst_le (l : List String) : (uniqFirst l).length ≤ l.length :=
  length_uniqFirstAux_le l []

theorem toNat_ofNat_small {n : Nat} (h : n < 55296) : (Char.ofNat n).toNat = n := by
  have hv : n.isValidChar := Or.inl h
  rw [Char.ofNat, dif_pos hv]
  rfl

theorem jsLower_id_of_not_upper {c : Char} (h : isUpperA c = false) : jsLower c = c := by
  unfold jsLower
  simp [h]

theorem isUpperA_jsLower (c : Char) : isUpperA (jsLower c) = false := by
  cases h : isUpperA c with
  | false => rw [jsLower_id_of_not_upper h]; exact h
  | true =>
    have hb : 65 ≤ c.toNat ∧ c.toNat ≤ 90 := by
      have h2 := h
      unfold isUpperA at h2
      simpa [Bool.and_eq_true, decide_eq_true_iff] using h2
    have ht : (Char.ofNat (c.toNat + 32)).toNat = c.toNat + 32 :=
      toNat_ofNat_small (by omega)
    have hjs : jsLower c = Char.ofNat (c.toNat + 32) := by unfold jsLower; simp [h]
    rw [hjs]
    unfold isUpperA
    rw [ht]
    have h2 : ¬(c.toNat + 32 ≤ 90) := by omega
    simp [h2]

theorem kebabReplace_id_of_no_upper : ∀ {l : List Char},
    (∀ c ∈ l, isUpperA c = false) → kebabReplace l = l := by
  intro l
  induction l using kebabReplace.induct with
  | case1 => intro _; rfl
  | case2 c => intro _; rfl
  | case3 a b rest hcond ih =>
    intro h
    exact absurd (Bool.and_elim_right hcond) (by simp [h b (by simp)])
  | case4 a b rest hcond ih =>
    intro h
    rw [kebabReplace, if_neg (by exact fun hc => hcond hc)]
    exact congrArg (a :: ·) (ih fun c hc => h c (List.mem_cons_of_mem _ hc))

theorem map_jsLower_id_of_no_upper : ∀ {l : List Char},
    (∀ c ∈ l, isUpperA c = false) → l.map jsLower = l := by
  intro l h
  induction l with
  | nil => rfl
  | cons c cs ih =>
    simp only [List.map_cons]
    rw [jsLower_id_of_not_upper (h c (by simp)), ih fun d hd => h d (List.mem_cons_of_mem _ hd)]

theorem normalizeKey_no_upper (s : String) : ∀ c ∈ (normalizeKey s).data, isUpperA c = false := by
  intro c hc
  unfold normalizeKey at hc
  rcases List.mem_map.1 hc with ⟨d, _, rfl⟩
  exact isUpperA_jsLower d

theorem normalizeKey_idem (s : String) : normalizeKey (normalizeKey s) = normalizeKey s := by
  have hnu := normalizeKey_no_upper s
  show String.mk ((kebabReplace (normalizeKey s).data).map jsLower) = normalizeKey s
  rw [kebabReplace_id_of_no_upper hnu, map_jsLower_id_of_no_upper hnu]

theorem lookupReg_eq_none_iff (l : List (String × ComponentDependencies)) (k : String) :
    lookupReg l k = none ↔ k ∉ l.map Prod.fst := by
  induction l with
  | nil => simp [lookupReg]
  | cons p rest ih =>
    rw [lookupReg]
    by_cases h : p.1 = k
    · simp [h]
    · simp only [if_neg h, ih, List.map_cons, List.mem_cons]
      constructor
      · intro hn
        rintro (hk | hk)
        · exact h hk.symm
        · exact hn hk
      · intro hn hk
        exact hn (Or.inr hk)

theorem append_props_inj {pascal a b : String}
    (h : pascal ++ a ++ "Props" = pascal ++ b ++ "Props") : a = b := by
  have hd : pascal.data ++ a.data ++ "Props".data = pascal.data ++ b.data ++ "Props".data := by
    have := congrArg String.data h
    simpa [String.data_append] using this
  have h1 : a.data ++ "Props".data = b.data ++ "Props".data := by
    have := hd
    rw [List.append_assoc, List.append_assoc] at this
    exact List.append_cancel_left this
  have h2 : a.data = b.data := List.append_cancel_right h1
  cases a; cases b
  exact congrArg String.mk h2

theorem gcpFold_nil (c : String) : ∀ (files : List SourceFile) (acc : List String),
    (∀ f ∈ files, extractPropsFromFile f c = []) →
    List.foldl (fun acc f =>
      let fileProps := extractPropsFromFile f c
      if 0 < fileProps.length then acc ++ fileProps else acc) acc files = acc := by
  intro files
  induction files with
  | nil => intro acc _; rfl
  | cons f fs ih =>
    intro acc h
    rw [List.foldl_cons]
    have hf : extractPropsFromFile f c = [] := h f (by simp)
    simp only [hf, List.length_nil, Nat.lt_irrefl, if_false]
    exact ih acc fun g hg => h g (List.mem_cons_of_mem _ hg)

theorem flatten_nil_of_all_nil {α : Type} (g : α → List String) :
    ∀ (xs : List α), (∀ x ∈ xs, g x = []) → (xs.map g).flatten = [] := by
  intro xs
  induction xs with
  | nil => intro _; rfl
  | cons x rest ih =>
    intro h
    simp only [List.map_cons, List.flatten_cons, h x (by simp), List.nil_append]
    exact ih fun y hy => h y (List.mem_cons_of_mem _ hy)

/-- Claim C7: the kebab-case normalization of `get-component-props.ts` and
`component-registry.ts` (insert a separator at each lowercase-to-uppercase
boundary, then lowercase) is idempotent: normalizing an already-normalized
key returns it unchanged. -/
theorem claim_C7 (s : String) : normalizeKey (normalizeKey s) = normalizeKey s :=
  normalizeKey_idem s

/-- Claim C10: `getComponentDependencies` first rewrites its argument to
kebab-case, so any name and its kebab-case form give identical results, and
the lookup is `none` exactly when the normalized key is not a registry key. -/
theorem claim_C10 (componentName : String) :
    getComponentDependencies componentName = getComponentDependencies (normalizeKey componentName) ∧
    (getComponentDependencies componentName = none ↔
      normalizeKey componentName ∉ componentRegistry.map Prod.fst) := by
  constructor
  · show lookupReg componentRegistry (normalizeKey componentName) =
      lookupReg componentRegistry (normalizeKey (normalizeKey componentName))
    rw [normalizeKey_idem]
  · exact lookupReg_eq_none_iff _ _

/-- Concrete instance of claim C10: the camelCase and kebab-case spellings of
`alert-dialog` resolve to the same registry entry. -/
theorem claim_C10_witness :
    getComponentDependencies "alertDialog" = getComponentDependencies "alert-dialog" :=
  (claim_C10 "alertDialog").1.trans
    (congrArg getComponentDependencies (by decide : normalizeKey "alertDialog" = "alert-dialog"))

/-- Claim C6: the name normalizer rejects the empty identifier with the
`InvalidInputError`-class error (`No component name or URL provided`) in both
scripts, and succeeds on every non-empty identifier. -/
theorem claim_C6 :
    extractComponentName "" = Except.error "No component name or URL provided" ∧
    P0.mainNormalize "" = Except.error "No component name or URL provided" ∧
    ∀ s : String, s ≠ "" →
      (∃ r, extractComponentName s = Except.ok r) ∧
      ∃ cd, P0.mainNormalize s = Except.ok cd := by
  refine ⟨rfl, rfl, ?_⟩
  intro s hs
  constructor
  · unfold extractComponentName
    rw [if_neg hs]
    split
    · exact ⟨_, rfl⟩
    · exact ⟨_, rfl⟩
  · unfold P0.mainNormalize
    rw [if_neg hs]
    exact ⟨_, rfl⟩

/-- Concrete instance of claim C6 at the identifier `tabs`. -/
theorem claim_C6_witness :
    ("tabs" ≠ "") ∧ (∃ r, extractComponentName "tabs" = Except.ok r) ∧
      ∃ cd, P0.mainNormalize "tabs" = Except.ok cd :=
  ⟨by decide, (claim_C6.2.2 "tabs" (by decide)).1, (claim_C6.2.2 "tabs" (by decide)).2⟩

/-- Claim C1: when every supplied source file yields zero extracted
candidates, both pipelines still return the synthesized default declarations
and the final candidate list is never empty. -/
theorem claim_C1 (files : List SourceFile) (c : String) (cd : P0.ComponentData)
    (h1 : ∀ f ∈ files, extractPropsFromFile f c = [])
    (h2 : ∀ f ∈ files, P0.extractPropsFromFile f cd = []) :
    extractAllComponentPropsCandidates files c = [createDefaultPropsInterface c] ∧
    extractAllComponentPropsCandidates files c ≠ [] ∧
    P0.extractComponentPropsCandidates files cd = uniqFirst (P0.createDefaultPropsInterface cd) ∧
    P0.extractComponentPropsCandidates files cd ≠ [] := by
  have hg : extractAllComponentPropsCandidates files c = [createDefaultPropsInterface c] := by
    unfold extractAllComponentPropsCandidates
    rw [gcpFold_nil c files [] h1]
    rfl
  have hp : P0.extractComponentPropsCandidates files cd =
      uniqFirst (P0.createDefaultPropsInterface cd) := by
    unfold P0.extractComponentPropsCandidates
    rw [flatten_nil_of_all_nil _ files h2]
    rfl
  have hd : P0.createDefaultPropsInterface cd ≠ [] := by
    unfold P0.createDefaultPropsInterface
    split <;> simp
  exact ⟨hg, by rw [hg]; simp, hp, by rw [hp]; exact uniqFirst_ne_nil hd⟩

/-- Concrete instance of claim C1: with no source files at all, the first
pipeline emits exactly the synthesized default interface for `badge`. -/
theorem claim_C1_witness :
    extractAllComponentPropsCandidates [] "badge" = [createDefaultPropsInterface "badge"] ∧
    P0.extractComponentPropsCandidates [] (P0.normalizeComponentName "badge") ≠ [] :=
  ⟨(claim_C1 [] "badge" (P0.normalizeComponentName "badge") (by simp) (by simp)).1,
   (claim_C1 [] "badge" (P0.normalizeComponentName "badge") (by simp) (by simp)).2.2.2⟩

/-- Claim C2: the extraction chain tries the ts-morph tier first, the babel
tier only when the first produced zero candidates, the regex tier only when
both earlier tiers produced zero candidates, stops at the first non-empty
tier, and a parse failure inside a structural tier is caught as zero
candidates instead of propagating. -/
theorem claim_C2 (file : SourceFile) (c : String) :
    (extractPropsWithTsMorph file c ≠ [] →
      extractPropsFromFile file c = extractPropsWithTsMorph file c) ∧
    (extractPropsWithTsMorph file c = [] → extractPropsWithBabel file c ≠ [] →
      extractPropsFromFile file c = extractPropsWithBabel file c) ∧
    (extractPropsWithTsMorph file c = [] → extractPropsWithBabel file c = [] →
      extractPropsFromFile file c = extractPropsWithRegex file c) ∧
    (file.tsAst = none → extractPropsWithTsMorph file c = []) ∧
    (file.babelAst = none → extractPropsWithBabel file c = []) := by
  refine ⟨?_, ?_, ?_, ?_, ?_⟩
  · intro h
    have hlen : ¬(extractPropsWithTsMorph file c).length = 0 := by
      simpa [List.length_eq_zero] using h
    unfold extractPropsFromFile
    simp only [if_neg hlen]
  · intro h1 h2
    have hlen2 : ¬(extractPropsWithBabel file c).length = 0 := by
      simpa [List.length_eq_zero] using h2
    unfold extractPropsFromFile
    simp only [h1, List.length_nil, if_pos rfl, if_true, if_neg hlen2]
  · intro h1 h2
    unfold extractPropsFromFile
    simp only [h1, h2, List.length_nil, if_pos rfl]
    simp
  · intro h
    unfold extractPropsWithTsMorph
    rw [h]
  · intro h
    unfold extractPropsWithBabel
    rw [h]

/-- Concrete instance of claim C2: on a file whose ts-morph tree has no
matching declaration but whose babel traversal sees a props interface, the
chain returns the babel tier's result. -/
theorem claim_C2_witness :
    extractPropsFromFile
      ⟨"", some ⟨[], [], [], []⟩, some [BabelNode.iface "FooProps" "interface FooProps x"]⟩
      "foo" = ["interface FooProps x"] :=
  ((claim_C2
      ⟨"", some ⟨[], [], [], []⟩, some [BabelNode.iface "FooProps" "interface FooProps x"]⟩
      "foo").2.1 (by decide) (by decide)).trans (by decide)

/-- Counterexample to claim C3 as stated: with two groups present, two
candidates of the same non-root group are renamed to the same
`<Prefix><Tag>Props` name, so rendered type names are not pairwise distinct;
and the substitution hits the first textual occurrence of the pattern, which
can sit in a comment while the declaration header is left untouched. -/
theorem claim_C3_counterexample :
    P0.deduplicateAndNameProps
        [⟨"type AProps = X;", some "Item"⟩, ⟨"type AProps = Y;", some "Item"⟩,
         ⟨"type AProps = Z;", none⟩] "A" =
      ["type AItemProps = X;", "type AItemProps = Y;", "type AProps = Z;"] ∧
    renderedName "type AItemProps = X;" = some "AItemProps" ∧
    renderedName "type AItemProps = Y;" = some "AItemProps" ∧
    2 ≤ (P0.dedupGroups
        [⟨"type AProps = X;", some "Item"⟩, ⟨"type AProps = Y;", some "Item"⟩,
         ⟨"type AProps = Z;", none⟩]).length ∧
    P0.deduplicateAndNameProps
        [⟨"/* type AProps */ interface AProps x", some "Item"⟩, ⟨"t", none⟩] "A" =
      ["/* type AItemProps */ interface AProps x", "t"] := by
  decide

theorem groupKey_of_none {p : P0.FoundProp} (h : p.subComponent = none) :
    P0.groupKey p = "Main" := by
  unfold P0.groupKey
  rw [h]

theorem groupKey_of_some {p : P0.FoundProp} {tag : String} (h : p.subComponent = some tag)
    (hne : tag ≠ "") : P0.groupKey p = tag := by
  unfold P0.groupKey
  rw [h]
  simp [hne]

theorem mem_dedupGroups_of_mem {l : List P0.FoundProp} {p : P0.FoundProp} (hp : p ∈ l) :
    ∃ texts, (P0.groupKey p, texts) ∈ P0.dedupGroups l ∧ p.text ∈ texts := by
  refine ⟨(l.filter fun q => P0.groupKey q = P0.groupKey p).map fun q => q.text, ?_, ?_⟩
  · unfold P0.dedupGroups
    exact List.mem_map.2 ⟨P0.groupKey p,
      mem_uniqFirst.2 (List.mem_map.2 ⟨p, hp, rfl⟩), rfl⟩
  · exact List.mem_map.2 ⟨p, List.mem_filter.2 ⟨hp, by simp⟩, rfl⟩

theorem dedup_length_lower {l : List P0.FoundProp} (h : 2 ≤ (P0.dedupGroups l).length) :
    ¬l.length ≤ 1 := by
  intro hle
  have h1 : (P0.dedupGroups l).length = (uniqFirst (l.map P0.groupKey)).length := by
    unfold P0.dedupGroups
    rw [List.length_map]
  have h2 : (uniqFirst (l.map P0.groupKey)).length ≤ l.length := by
    calc (uniqFirst (l.map P0.groupKey)).length ≤ (l.map P0.groupKey).length :=
          length_uniqFirst_le _
      _ = l.length := List.length_map _ _
  omega

/-- Amended claim C3: with at least two groups, every root (untagged)
candidate's text passes through unchanged; every candidate tagged with a
non-`Main` tag is rewritten by replacing the first textual occurrence of
`(type|interface) <Prefix>Props` with `<Prefix><Tag>Props` (a no-op when no
occurrence exists, and not restricted to the declaration header); and two
distinct tags always produce distinct rewritten names, although two
candidates of the same group may share one. -/
theorem claim_C3_amended (l : List P0.FoundProp) (pascal : String)
    (hlen : 2 ≤ (P0.dedupGroups l).length) :
    (∀ p ∈ l, p.subComponent = none → p.text ∈ P0.deduplicateAndNameProps l pascal) ∧
    (∀ p ∈ l, ∀ tag, p.subComponent = some tag → tag ≠ "" → tag ≠ "Main" →
      replaceFirstHeader pascal tag p.text ∈ P0.deduplicateAndNameProps l pascal) ∧
    (∀ a b : String, a ≠ b → pascal ++ a ++ "Props" ≠ pascal ++ b ++ "Props") := by
  have hgt : ¬l.length ≤ 1 := dedup_length_lower hlen
  have hout : P0.deduplicateAndNameProps l pascal =
      ((P0.dedupGroups l).map fun g =>
        if g.1 = "Main" ∨ (P0.dedupGroups l).length = 1 then g.2
        else g.2.map (replaceFirstHeader pascal g.1)).flatten := by
    unfold P0.deduplicateAndNameProps
    rw [if_neg hgt]
  refine ⟨?_, ?_, fun a b hab h => hab (append_props_inj h)⟩
  · intro p hp hnone
    rcases mem_dedupGroups_of_mem hp with ⟨texts, hmem, htext⟩
    rw [groupKey_of_none hnone] at hmem
    rw [hout]
    refine List.mem_flatten.2 ⟨texts, ?_, htext⟩
    have hx := List.mem_map_of_mem (fun g : String × List String =>
      if g.1 = "Main" ∨ (P0.dedupGroups l).length = 1 then g.2
      else g.2.map (replaceFirstHeader pascal g.1)) hmem
    simpa using hx
  · intro p hp tag htag hne hnm
    rcases mem_dedupGroups_of_mem hp with ⟨texts, hmem, htext⟩
    rw [groupKey_of_some htag hne] at hmem
    rw [hout]
    refine List.mem_flatten.2 ⟨texts.map (replaceFirstHeader pascal tag), ?_,
      List.mem_map.2 ⟨p.text, htext, rfl⟩⟩
    have hnot : ¬(tag = "Main" ∨ (P0.dedupGroups l).length = 1) := by
      rintro (h | h)
      · exact hnm h
      · omega
    have hx := List.mem_map_of_mem (fun g : String × List String =>
      if g.1 = "Main" ∨ (P0.dedupGroups l).length = 1 then g.2
      else g.2.map (replaceFirstHeader pascal g.1)) hmem
    simp only at hx
    rw [if_neg hnot] at hx
    exact hx

/-- Concrete instance of amended claim C3: the untagged candidate survives
unchanged and the tagged one is renamed. -/
theorem claim_C3_witness :
    "type AProps = Z;" ∈ P0.deduplicateAndNameProps
        [⟨"type AProps = X;", some "Item"⟩, ⟨"type AProps = Z;", none⟩] "A" ∧
    replaceFirstHeader "A" "Item" "type AProps = X;" ∈ P0.deduplicateAndNameProps
        [⟨"type AProps = X;", some "Item"⟩, ⟨"type AProps = Z;", none⟩] "A" :=
  ⟨(claim_C3_amended _ "A" (by decide)).1 ⟨"type AProps = Z;", none⟩ (by decide) rfl,
   (claim_C3_amended _ "A" (by decide)).2.1 ⟨"type AProps = X;", some "Item"⟩ (by decide)
     "Item" rfl (by decide) (by decide)⟩

/-- Counterexample to claim C4 as stated: in the `get-component-props.ts`
pipeline two files contributing the character-for-character identical
declaration `type FooProps = number;` leave two copies in the assembled
candidate list — that pipeline performs no textual deduplication. -/
theorem claim_C4_counterexample :
    countOcc "type FooProps = number;"
      (extractAllComponentPropsCandidates
        [⟨"", some ⟨[], [⟨"FooProps", "type FooProps = number;"⟩], [], []⟩, some []⟩,
         ⟨"", some ⟨[], [⟨"FooProps", "type FooProps = number;"⟩], [], []⟩, some []⟩]
        "foo") = 2 ∧
    "type FooProps = number;" ∈ extractPropsFromFile
      ⟨"", some ⟨[], [⟨"FooProps", "type FooProps = number;"⟩], [], []⟩, some []⟩ "foo" := by
  decide

/-- Amended claim C4: the deduplication holds of the `part_000` pipeline
(`extractComponentProps`): when two supplied files each contribute a
candidate with identical declaration text, the deduplicated candidate list
contains exactly one copy of that text, and no text ever appears twice. -/
theorem claim_C4_amended (files : List SourceFile) (cd : P0.ComponentData)
    (f1 f2 : SourceFile) (t : String) (hf1 : f1 ∈ files) (hf2 : f2 ∈ files)
    (ht1 : t ∈ P0.extractPropsFromFile f1 cd) (ht2 : t ∈ P0.extractPropsFromFile f2 cd) :
    countOcc t (P0.extractComponentPropsCandidates files cd) = 1 ∧
    ∀ u, countOcc u (P0.extractComponentPropsCandidates files cd) ≤ 1 := by
  have hmem : t ∈ (files.map fun f => P0.extractPropsFromFile f cd).flatten :=
    List.mem_flatten.2 ⟨P0.extractPropsFromFile f1 cd,
      List.mem_map_of_mem (fun f => P0.extractPropsFromFile f cd) hf1, ht1⟩
  have hne : ((files.map fun f => P0.extractPropsFromFile f cd).flatten).isEmpty = false := by
    cases h : (files.map fun f => P0.extractPropsFromFile f cd).flatten with
    | nil => rw [h] at hmem; exact absurd hmem (List.not_mem_nil t)
    | cons a l => rfl
  have hpipe : P0.extractComponentPropsCandidates files cd =
      uniqFirst (files.map fun f => P0.extractPropsFromFile f cd).flatten := by
    unfold P0.extractComponentPropsCandidates
    simp only [hne]
    rfl
  constructor
  · rw [hpipe, countOcc_uniqFirst, if_pos hmem]
  · intro u
    rw [hpipe, countOcc_uniqFirst]
    by_cases hu : u ∈ (files.map fun f => P0.extractPropsFromFile f cd).flatten
    · rw [if_pos hu]
    · rw [if_neg hu]
      exact Nat.zero_le _

/-- Concrete instance of amended claim C4: the same duplicated file pair fed
to the `part_000` pipeline yields exactly one copy. -/
theorem claim_C4_witness :
    countOcc "type FooProps = number;"
      (P0.extractComponentPropsCandidates
        [⟨"", some ⟨[], [⟨"FooProps", "type FooProps = number;"⟩], [], []⟩, some []⟩,
         ⟨"", some ⟨[], [⟨"FooProps", "type FooProps = number;"⟩], [], []⟩, some []⟩]
        (P0.normalizeComponentName "foo")) = 1 :=
  (claim_C4_amended _ (P0.normalizeComponentName "foo")
    ⟨"", some ⟨[], [⟨"FooProps", "type FooProps = number;"⟩], [], []⟩, some []⟩
    ⟨"", some ⟨[], [⟨"FooProps", "type FooProps = number;"⟩], [], []⟩, some []⟩
    "type FooProps = number;" (by decide) (by decide) (by decide) (by decide)).1

/-- Counterexample to claim C5 as stated: the specification's predicate
accepts `alert-dialog-props` for the component `alertDialog` (its lower-case
form contains the normalized name `alert-dialog` and the marker `props`), but
`isPropsType` of `get-component-props.ts` rejects it — that implementation
only consults the raw component name, and its `Props` containment test is
case-sensitive. -/
theorem claim_C5_counterexample :
    isPropsTypeSpec "alert-dialog-props" "alertDialog" "alert-dialog" "AlertDialog" = true ∧
    isPropsType "alert-dialog-props" "alertDialog" = false ∧
    normalizeKey "alertDialog" = "alert-dialog" ∧
    pascalCaseGcp "alert-dialog" = "AlertDialog" := by
  decide

/-- Amended claim C5: each script's actual predicate, characterized from its
code — `get-component-props.ts` uses contains-`Props`, or equals `Props`, or
(lower-cased name contains the lower-cased raw component name and `props` or
`attributes`); `part_000` uses contains-`Props`, or lower-case equals
`props`, or (contains `props` and one of the raw/normalized/Pascal names,
with no `attributes` marker).  Within each script the tiers share the
predicate: a declaration accepted by it is collected by the ts-morph tier,
the babel tier and the regex tier alike. -/
theorem claim_C5_amended :
    (∀ name c, isPropsType name c = true ↔
      (containsStr name "Props" = true ∨ name = "Props" ∨
        (containsStr (lowerStr name) (lowerStr c) = true ∧
          (containsStr (lowerStr name) "props" = true ∨
           containsStr (lowerStr name) "attributes" = true)))) ∧
    (∀ name cd, P0.isPropsType name cd = true ↔
      (containsStr name "Props" = true ∨ lowerStr name = "props" ∨
        (containsStr (lowerStr name) "props" = true ∧
          (containsStr (lowerStr name) (lowerStr cd.componentName) = true ∨
           containsStr (lowerStr name) (lowerStr cd.normalizedName) = true ∨
           containsStr (lowerStr name) (lowerStr cd.pascalName) = true)))) ∧
    (∀ (ast : TsAst) (b : Option (List BabelNode)) (code c : String) (d : Decl),
      d ∈ ast.interfaces → isPropsType d.name c = true →
      d.text ∈ extractPropsWithTsMorph ⟨code, some ast, b⟩ c) ∧
    (∀ (nodes : List BabelNode) (a : Option TsAst) (code c n t : String),
      BabelNode.iface n t ∈ nodes → isPropsType n c = true →
      t ∈ extractPropsWithBabel ⟨code, a, some nodes⟩ c) ∧
    (∀ (code c : String) (o1 : Option TsAst) (o2 : Option (List BabelNode)) (d : Decl),
      d ∈ interfaceMatches code → isPropsType d.name c = true →
      d.text ∈ extractPropsWithRegex ⟨code, o1, o2⟩ c) := by
  refine ⟨?_, ?_, ?_, ?_, ?_⟩
  · intro name c
    unfold isPropsType
    simp only [Bool.or_eq_true, Bool.and_eq_true, beq_iff_eq]
    tauto
  · intro name cd
    unfold P0.isPropsType
    simp only [Bool.or_eq_true, Bool.and_eq_true, beq_iff_eq]
    tauto
  · intro ast b code c d hd hprop
    unfold extractPropsWithTsMorph
    refine List.mem_append_left _ (List.mem_append_left _ (List.mem_append_left _ ?_))
    exact List.mem_map.2 ⟨d, List.mem_filter.2 ⟨hd, by simp [hprop]⟩, rfl⟩
  · intro nodes a code c n t hn hprop
    show t ∈ List.foldr (fun nd acc => babelCollect c nd ++ acc) [] nodes
    induction nodes with
    | nil => exact absurd hn (List.not_mem_nil _)
    | cons nd rest ih =>
      rw [List.foldr_cons]
      rcases List.mem_cons.1 hn with rfl | hn2
      · exact List.mem_append_left _ (by simp [babelCollect, hprop])
      · exact List.mem_append_right _ (ih hn2)
  · intro code c o1 o2 d hd hprop
    unfold extractPropsWithRegex
    refine List.mem_append_left _ (List.mem_append_left _ ?_)
    exact List.mem_map.2 ⟨d, List.mem_filter.2 ⟨hd, by simp [hprop]⟩, rfl⟩

/-- Concrete instance of amended claim C5: a props interface seen by the
ts-morph tier is collected. -/
theorem claim_C5_witness :
    "interface FooProps x" ∈ extractPropsWithTsMorph
      ⟨"", some ⟨[⟨"FooProps", "interface FooProps x"⟩], [], [], []⟩, none⟩ "foo" :=
  claim_C5_amended.2.2.1 ⟨[⟨"FooProps", "interface FooProps x"⟩], [], [], []⟩ none "" "foo"
    ⟨"FooProps", "interface FooProps x"⟩ (by decide) (by decide)

set_option maxRecDepth 100000 in
/-- Counterexample to claim C8 as stated: in `part_000`, the synthetic
generator does not fall back to the minimal children/class-name template for
`not-found` — that name matches a dedicated heuristic that adds
`title`/`description`/`homeUrl`/`buttonText`/`onAction` properties. -/
theorem claim_C8_counterexample :
    P0.createSingleComponentProps (P0.normalizeComponentName "not-found") none ≠
      P0.singleTemplate "Default props interface for NotFound" "NotFoundProps" "" ∧
    containsStr (P0.createSingleComponentProps (P0.normalizeComponentName "not-found") none)
      "homeUrl?: string;" = true := by
  constructor
  · intro h
    have h2 := congrArg (fun s => containsStr s "homeUrl") h
    revert h2
    decide
  · decide

set_option maxRecDepth 100000 in
/-- Amended claim C8: for the input `not-found` with no locatable source
file, the `get-component-props.ts` pipeline emits exactly the synthetic
minimal template (no heuristic block), the normalized key stays `not-found`
and the Pascal prefix is `NotFound` in both scripts; the `part_000`
generator instead instantiates its dedicated not-found heuristic block. -/
theorem claim_C8_amended :
    normalizeKey "not-found" = "not-found" ∧
    pascalCaseGcp "not-found" = "NotFound" ∧
    (P0.normalizeComponentName "not-found").normalizedName = "not-found" ∧
    (P0.normalizeComponentName "not-found").pascalName = "NotFound" ∧
    extractAllComponentPropsCandidates [] "not-found" =
      [createDefaultPropsInterface "not-found"] ∧
    createDefaultPropsInterface "not-found" = gcpDefaultTemplate "NotFound" "" ∧
    gcpSpecificProps "not-found" = "" ∧
    P0.createSingleComponentProps (P0.normalizeComponentName "not-found") none =
      P0.singleTemplate "Default props interface for NotFound" "NotFoundProps"
        P0.notFoundBlock := by
  refine ⟨by decide, by decide, by decide, by decide, rfl, ?_, by decide, ?_⟩
  · show gcpDefaultTemplate (pascalCaseGcp "not-found") (gcpSpecificProps "not-found") =
      gcpDefaultTemplate "NotFound" ""
    rw [show pascalCaseGcp "not-found" = "NotFound" from by decide,
      show gcpSpecificProps "not-found" = "" from by decide]
  · show P0.singleTemplate _ _ _ = P0.singleTemplate _ _ _
    rw [show (P0.normalizeComponentName "not-found").componentName = "not-found" from rfl,
      show (P0.normalizeComponentName "not-found").pascalName = "NotFound" from by decide,
      show P0.heuristicBlock (lowerStr "not-found") none = P0.notFoundBlock from by decide]
    decide
